import Mathlib

/-!
Verification of the flight_option drone controller.

The definitions below are a shallow embedding of the Python sources
`drone_flight_options.py` (class `DroneCalibrated`) and
`drone_flight_patt1.py` (pattern generators).  Real-valued quantities are
modelled as rationals (`ℚ`); the only real-number computation in the code,
the Euclidean distance used by the segment planner, is modelled over `ℝ`.
Telemetry reads (`drone.get_position_data()`) are modelled as streams
`ℕ → ℚ × ℚ × ℚ` giving the successive `(x, y, z)` snapshots a run observes,
and externally sampled randomness (`random.uniform`) as explicit inputs.
-/

namespace FlightOption

/-! ## Random-walk delta clamping (drone_flight_patt1.py)

Both `move_random_xyz` (lines 266-277) and `move_random_limits`
(lines 195-206) post-process each sampled per-axis delta with the same
three-way test against the safety-box bounds: if the current position plus
the delta would fall below `ref + neg` the delta is replaced by `|delta|`,
if it would exceed `ref + pos` it is replaced by `-|delta|`, otherwise it
is kept. -/

/-- One axis of the sign-clamping step: `x` is the current telemetry
coordinate, `x0` the reference captured at pattern entry, `neg`/`pos` the
box offsets, `d` the sampled delta. -/
def clamp_delta (x x0 neg pos d : ℚ) : ℚ :=
  if x + d < x0 + neg then |d|
  else if x + d > x0 + pos then -|d|
  else d

/-- The verified-move target a random-walk segment issues: the current
telemetry position plus the per-axis clamped deltas (both random-walk
variants compute it this way after sampling). -/
def random_seg_target (x0 y0 z0 x_neg x_pos y_neg y_pos z_neg z_pos
    x y z dx dy dz : ℚ) : ℚ × ℚ × ℚ :=
  (x + clamp_delta x x0 x_neg x_pos dx,
   y + clamp_delta y y0 y_neg y_pos dy,
   z + clamp_delta z z0 z_neg z_pos dz)

/-- Targets issued by `move_random_xyz` (drone_flight_patt1.py lines
214-282): the three initial Y-axis calibration legs relative to the entry
reference `tel 0`, then `num_segs` random segments, each reading the live
position `tel (i+1)` and adding the clamped sampled deltas `deltas i`.
Hover commands carry no target and are omitted. -/
def move_random_xyz_cmds (tel : ℕ → ℚ × ℚ × ℚ) (deltas : ℕ → ℚ × ℚ × ℚ)
    (x_neg x_pos y_neg y_pos z_neg z_pos : ℚ) (num_segs : ℕ) :
    List (ℚ × ℚ × ℚ) :=
  let x0 := (tel 0).1
  let y0 := (tel 0).2.1
  let z0 := (tel 0).2.2
  [(x0, y0 + y_pos, z0), (x0, y0 + y_neg, z0), (x0, y0, z0)]
    ++ (List.range num_segs).map (fun i =>
        random_seg_target x0 y0 z0 x_neg x_pos y_neg y_pos z_neg z_pos
          (tel (i + 1)).1 (tel (i + 1)).2.1 (tel (i + 1)).2.2
          (deltas i).1 (deltas i).2.1 (deltas i).2.2)

/-- Targets issued by `move_random_limits` (drone_flight_patt1.py lines
151-211).  The per-axis deltas are the spherical samples
`(r sin θ sin φ, r sin θ cos φ, r cos θ)`, which are produced outside the
embedded logic, so they are taken as an input stream; the clamping and the
issued targets are computed exactly as in `move_random_xyz`. -/
def move_random_limits_cmds (tel : ℕ → ℚ × ℚ × ℚ) (deltas : ℕ → ℚ × ℚ × ℚ)
    (x_neg x_pos y_neg y_pos z_neg z_pos : ℚ) (segments : ℕ) :
    List (ℚ × ℚ × ℚ) :=
  let x0 := (tel 0).1
  let y0 := (tel 0).2.1
  let z0 := (tel 0).2.2
  [(x0, y0 + y_pos, z0), (x0, y0 + y_neg, z0), (x0, y0, z0)]
    ++ (List.range segments).map (fun i =>
        random_seg_target x0 y0 z0 x_neg x_pos y_neg y_pos z_neg z_pos
          (tel (i + 1)).1 (tel (i + 1)).2.1 (tel (i + 1)).2.2
          (deltas i).1 (deltas i).2.1 (deltas i).2.2)

/-! ## Simple sweep patterns (drone_flight_patt1.py) -/

/-- The vertical-delta reduction shared by `move_z_simple` (line 84) and
`move_yz_simple` (line 122):
`delta_z = del_z if del_z < 0.75 * z0 else 0.75 * z0`. -/
def clamp_del_z (del_z z0 : ℚ) : ℚ :=
  if del_z < 3 / 4 * z0 then del_z else 3 / 4 * z0

/-- Verified-move targets of `move_x_simple` (lines 59-73): the entry
reference is read once from `tel 0`; each repeat issues the four X legs. -/
def move_x_simple_cmds (tel : ℕ → ℚ × ℚ × ℚ) (del_x : ℚ) (repeats : ℕ) :
    List (ℚ × ℚ × ℚ) :=
  let x0 := (tel 0).1
  let y0 := (tel 0).2.1
  let z0 := (tel 0).2.2
  (List.replicate repeats
    [(x0 + del_x, y0, z0), (x0, y0, z0), (x0 - del_x, y0, z0), (x0, y0, z0)]).flatten

/-- Verified-move targets of `move_y_simple` (lines 95-111). -/
def move_y_simple_cmds (tel : ℕ → ℚ × ℚ × ℚ) (del_y : ℚ) (repeats : ℕ) :
    List (ℚ × ℚ × ℚ) :=
  let x0 := (tel 0).1
  let y0 := (tel 0).2.1
  let z0 := (tel 0).2.2
  (List.replicate repeats
    [(x0, y0 + del_y, z0), (x0, y0, z0), (x0, y0 - del_y, z0), (x0, y0, z0)]).flatten

/-- Verified-move targets of `move_z_simple` (lines 76-92): the vertical
delta is first reduced by `clamp_del_z`. -/
def move_z_simple_cmds (tel : ℕ → ℚ × ℚ × ℚ) (del_z : ℚ) (repeats : ℕ) :
    List (ℚ × ℚ × ℚ) :=
  let x0 := (tel 0).1
  let y0 := (tel 0).2.1
  let z0 := (tel 0).2.2
  let delta_z := clamp_del_z del_z z0
  (List.replicate repeats
    [(x0, y0, z0 + delta_z), (x0, y0, z0), (x0, y0, z0 - delta_z), (x0, y0, z0)]).flatten

/-- Verified-move targets of `move_yz_simple` (lines 114-148): per repeat,
four Y legs followed by four Z legs, the Z legs using `clamp_del_z`. -/
def move_yz_simple_cmds (tel : ℕ → ℚ × ℚ × ℚ) (del_y del_z : ℚ) (repeats : ℕ) :
    List (ℚ × ℚ × ℚ) :=
  let x0 := (tel 0).1
  let y0 := (tel 0).2.1
  let z0 := (tel 0).2.2
  let delta_z := clamp_del_z del_z z0
  (List.replicate repeats
    [(x0, y0 + del_y, z0), (x0, y0, z0), (x0, y0 - del_y, z0), (x0, y0, z0),
     (x0, y0, z0 + delta_z), (x0, y0, z0), (x0, y0, z0 - delta_z), (x0, y0, z0)]).flatten

/-- The clamped target stays inside the box on one axis, provided the
current coordinate is inside the box and the delta magnitude is at most
half the box width. -/
theorem clamp_delta_mem_box (x x0 neg pos d : ℚ)
    (h1 : x0 + neg ≤ x) (h2 : x ≤ x0 + pos) (hd : |d| ≤ (pos - neg) / 2) :
    x0 + neg ≤ x + clamp_delta x x0 neg pos d ∧
      x + clamp_delta x x0 neg pos d ≤ x0 + pos := by
  unfold clamp_delta
  split_ifs with hlo hhi
  · have hdneg : d < 0 := by linarith
    rw [abs_of_neg hdneg] at hd ⊢
    constructor <;> linarith
  · have hdpos : 0 < d := by linarith
    rw [abs_of_pos hdpos] at hd ⊢
    constructor <;> linarith
  · push_neg at hlo hhi
    exact ⟨hlo, hhi⟩

/-- `clamp_del_z` computes the minimum of the requested delta and
three-quarters of the entry height. -/
theorem clamp_del_z_eq_min (del_z z0 : ℚ) :
    clamp_del_z del_z z0 = min del_z (3 / 4 * z0) := by
  unfold clamp_del_z
  split_ifs with h
  · exact (min_eq_left h.le).symm
  · exact (min_eq_right (le_of_not_lt h)).symm

/-- Claim C2 counterexample: with reference `(0,0,0)`, safety box
`[-1,1]` on every axis, live position `(1,0,0)` (inside the box) and
sampled delta `(-3,0,0)`, the sign-clamp flips the delta to `+3` and both
random-walk variants command the target `(4,0,0)`, whose X offset `4` from
the reference exceeds the box bound `1`. -/
theorem random_walk_box_cex :
    move_random_xyz_cmds (fun i => if i = 0 then ((0 : ℚ), (0 : ℚ), (0 : ℚ)) else (1, 0, 0))
        (fun _ => (-3, 0, 0)) (-1) 1 (-1) 1 (-1) 1 1 =
      [(0, 1, 0), (0, -1, 0), (0, 0, 0), (4, 0, 0)] ∧
    move_random_limits_cmds (fun i => if i = 0 then ((0 : ℚ), (0 : ℚ), (0 : ℚ)) else (1, 0, 0))
        (fun _ => (-3, 0, 0)) (-1) 1 (-1) 1 (-1) 1 1 =
      [(0, 1, 0), (0, -1, 0), (0, 0, 0), (4, 0, 0)] ∧
    ¬ ((4 : ℚ) - 0 ≤ 1) := by
  refine ⟨?_, ?_, by norm_num⟩ <;>
    norm_num [move_random_xyz_cmds, move_random_limits_cmds, random_seg_target, clamp_delta,
      List.range_succ, abs_of_nonpos]

/-- Claim C2, amended: the post-clamp random-walk target stays inside the
safety box on every axis provided the current telemetry position is itself
inside the box and each sampled delta magnitude is at most half the box
width on its axis (without these provisos the claim fails, see the
counterexample). -/
theorem random_walk_box_containment
    (x0 y0 z0 x_neg x_pos y_neg y_pos z_neg z_pos x y z dx dy dz : ℚ)
    (hx1 : x0 + x_neg ≤ x) (hx2 : x ≤ x0 + x_pos) (hdx : |dx| ≤ (x_pos - x_neg) / 2)
    (hy1 : y0 + y_neg ≤ y) (hy2 : y ≤ y0 + y_pos) (hdy : |dy| ≤ (y_pos - y_neg) / 2)
    (hz1 : z0 + z_neg ≤ z) (hz2 : z ≤ z0 + z_pos) (hdz : |dz| ≤ (z_pos - z_neg) / 2) :
    (x0 + x_neg ≤
        (random_seg_target x0 y0 z0 x_neg x_pos y_neg y_pos z_neg z_pos x y z dx dy dz).1 ∧
      (random_seg_target x0 y0 z0 x_neg x_pos y_neg y_pos z_neg z_pos x y z dx dy dz).1 ≤
        x0 + x_pos) ∧
    (y0 + y_neg ≤
        (random_seg_target x0 y0 z0 x_neg x_pos y_neg y_pos z_neg z_pos x y z dx dy dz).2.1 ∧
      (random_seg_target x0 y0 z0 x_neg x_pos y_neg y_pos z_neg z_pos x y z dx dy dz).2.1 ≤
        y0 + y_pos) ∧
    (z0 + z_neg ≤
        (random_seg_target x0 y0 z0 x_neg x_pos y_neg y_pos z_neg z_pos x y z dx dy dz).2.2 ∧
      (random_seg_target x0 y0 z0 x_neg x_pos y_neg y_pos z_neg z_pos x y z dx dy dz).2.2 ≤
        z0 + z_pos) := by
  refine ⟨?_, ?_, ?_⟩
  · exact clamp_delta_mem_box x x0 x_neg x_pos dx hx1 hx2 hdx
  · exact clamp_delta_mem_box y y0 y_neg y_pos dy hy1 hy2 hdy
  · exact clamp_delta_mem_box z z0 z_neg z_pos dz hz1 hz2 hdz

/-- Witness for the amended box-containment theorem at a concrete input:
reference `(0,0,0)`, box `[-1,1]³`, live position `(1/2,0,0)`, sampled
delta `(3/4,0,0)`. -/
theorem random_walk_box_containment_witness :
    ((0 : ℚ) + (-1) ≤
        (random_seg_target 0 0 0 (-1) 1 (-1) 1 (-1) 1 (1/2) 0 0 (3/4) 0 0).1 ∧
      (random_seg_target 0 0 0 (-1) 1 (-1) 1 (-1) 1 (1/2) 0 0 (3/4) 0 0).1 ≤ (0 : ℚ) + 1) ∧
    ((0 : ℚ) + (-1) ≤
        (random_seg_target 0 0 0 (-1) 1 (-1) 1 (-1) 1 (1/2) 0 0 (3/4) 0 0).2.1 ∧
      (random_seg_target 0 0 0 (-1) 1 (-1) 1 (-1) 1 (1/2) 0 0 (3/4) 0 0).2.1 ≤ (0 : ℚ) + 1) ∧
    ((0 : ℚ) + (-1) ≤
        (random_seg_target 0 0 0 (-1) 1 (-1) 1 (-1) 1 (1/2) 0 0 (3/4) 0 0).2.2 ∧
      (random_seg_target 0 0 0 (-1) 1 (-1) 1 (-1) 1 (1/2) 0 0 (3/4) 0 0).2.2 ≤ (0 : ℚ) + 1) :=
  random_walk_box_containment 0 0 0 (-1) 1 (-1) 1 (-1) 1 (1/2) 0 0 (3/4) 0 0
    (by norm_num) (by norm_num) (by rw [abs_of_nonneg] <;> norm_num)
    (by norm_num) (by norm_num) (by rw [abs_of_nonneg] <;> norm_num)
    (by norm_num) (by norm_num) (by rw [abs_of_nonneg] <;> norm_num)

/-- Claim C7: every vertical sweep uses the effective delta
`min (del_z, 0.75 * z0)`: the reduction step equals that minimum, the
concrete instance `z0 = 0.4`, `del_z = 1.0` yields `0.3`, and the Z legs
of both `move_z_simple` and `move_yz_simple` are offsets of exactly that
minimum from the entry height. -/
theorem vertical_sweep_clamp (tel : ℕ → ℚ × ℚ × ℚ) (del_y del_z z0v : ℚ) :
    clamp_del_z del_z z0v = min del_z (3 / 4 * z0v) ∧
    clamp_del_z 1 (2/5) = 3/10 ∧
    move_z_simple_cmds tel del_z 1 =
      [((tel 0).1, (tel 0).2.1, (tel 0).2.2 + min del_z (3 / 4 * (tel 0).2.2)),
       ((tel 0).1, (tel 0).2.1, (tel 0).2.2),
       ((tel 0).1, (tel 0).2.1, (tel 0).2.2 - min del_z (3 / 4 * (tel 0).2.2)),
       ((tel 0).1, (tel 0).2.1, (tel 0).2.2)] ∧
    (move_yz_simple_cmds tel del_y del_z 1).drop 4 =
      [((tel 0).1, (tel 0).2.1, (tel 0).2.2 + min del_z (3 / 4 * (tel 0).2.2)),
       ((tel 0).1, (tel 0).2.1, (tel 0).2.2),
       ((tel 0).1, (tel 0).2.1, (tel 0).2.2 - min del_z (3 / 4 * (tel 0).2.2)),
       ((tel 0).1, (tel 0).2.1, (tel 0).2.2)] := by
  refine ⟨clamp_del_z_eq_min del_z z0v, by norm_num [clamp_del_z], ?_, ?_⟩
  · simp [move_z_simple_cmds, clamp_del_z_eq_min]
  · simp [move_yz_simple_cmds, clamp_del_z_eq_min]

/-! ## Segment planner: `send_abs_pos_w_output` (drone_flight_options.py lines 387-410)

The method computes `r_total = sqrt((x1-x0)² + (y1-y0)² + (z1-z0)²)`,
`num_segments = round((r_total / velocity) / delta_t)` with
`delta_t = 0.05`, per-axis increments `0 if num_segments == 0 else
(x1-x0)/num_segments`, and then issues `num_segments` absolute-position
commands at `(x0 + i*delta_x, y0 + i*delta_y, z0 + i*delta_z, velocity)`
for `i = 0 .. num_segments-1`. -/

/-- The fixed segment cadence, 0.05 seconds. -/
def delta_t : ℚ := 1 / 20

/-- Python 3 `round` on a real argument: nearest integer, with ties
(fractional part exactly one half) going to the even integer. -/
noncomputable def py_round (r : ℝ) : ℤ :=
  if r - ⌊r⌋ = 1 / 2 then (if Even ⌊r⌋ then ⌊r⌋ else ⌊r⌋ + 1) else round r

/-- The planner's segment count
`round((sqrt((x1-x0)² + (y1-y0)² + (z1-z0)²) / velocity) / delta_t)`. -/
noncomputable def num_segments (x0 y0 z0 x1 y1 z1 velocity : ℚ) : ℤ :=
  py_round ((Real.sqrt (((x1 - x0) ^ 2 + (y1 - y0) ^ 2 + (z1 - z0) ^ 2 : ℚ) : ℝ) /
    (velocity : ℝ)) / (delta_t : ℝ))

/-- One axis' per-segment increment:
`0 if num_segments == 0 else (x1 - x0) / num_segments`. -/
def seg_delta (n : ℤ) (q : ℚ) : ℚ := if n = 0 then 0 else q / (n : ℚ)

/-- The list of absolute-position commands the planner's loop issues,
given the segment count `n`. -/
def planner_cmds (x0 y0 z0 x1 y1 z1 velocity : ℚ) (n : ℤ) :
    List (ℚ × ℚ × ℚ × ℚ) :=
  (List.range n.toNat).map (fun i =>
    (x0 + i * seg_delta n (x1 - x0), y0 + i * seg_delta n (y1 - y0),
     z0 + i * seg_delta n (z1 - z0), velocity))

/-- For the unit move `(0,0,0) → (1,0,0)` at velocity 1 the planner
computes `round(1 / 1 / 0.05) = 20` segments. -/
theorem num_segments_unit_dist : num_segments 0 0 0 1 0 0 1 = 20 := by
  have h1 : ((((1 : ℚ) - 0) ^ 2 + ((0 : ℚ) - 0) ^ 2 + ((0 : ℚ) - 0) ^ 2 : ℚ) : ℝ) = 1 := by
    push_cast
    norm_num
  have h2 : (Real.sqrt (((1 : ℚ) - 0) ^ 2 + (((0 : ℚ)) - 0) ^ 2 + (((0 : ℚ)) - 0) ^ 2 : ℚ) /
      (((1 : ℚ)) : ℝ)) / ((delta_t : ℚ) : ℝ) = 20 := by
    rw [h1]
    rw [Real.sqrt_one]
    norm_num [delta_t]
  unfold num_segments
  rw [h2]
  unfold py_round
  norm_num [round_eq]

/-- For the short move `(0,0,0) → (0.01,0,0)` at velocity 1 the planner
computes `round(0.01 / 1 / 0.05) = round(0.2) = 0` segments. -/
theorem num_segments_short_dist : num_segments 0 0 0 (1/100) 0 0 1 = 0 := by
  have h1 : ((((1/100 : ℚ) - 0) ^ 2 + ((0 : ℚ) - 0) ^ 2 + ((0 : ℚ) - 0) ^ 2 : ℚ) : ℝ) =
      (1 / 100 : ℝ) ^ 2 := by
    push_cast
    norm_num
  have h2 : (Real.sqrt ((((1/100 : ℚ)) - 0) ^ 2 + (((0 : ℚ)) - 0) ^ 2 + (((0 : ℚ)) - 0) ^ 2 : ℚ) /
      (((1 : ℚ)) : ℝ)) / ((delta_t : ℚ) : ℝ) = 1 / 5 := by
    rw [h1]
    rw [Real.sqrt_sq (by norm_num : (0 : ℝ) ≤ 1 / 100)]
    norm_num [delta_t]
  unfold num_segments
  rw [h2]
  unfold py_round
  norm_num [round_eq]

/-- With a positive segment count, the `n` per-segment increments sum to
the whole intended per-axis displacement, with no drift. -/
theorem seg_delta_replicate_sum (n : ℤ) (hn : 1 ≤ n) (q : ℚ) :
    (List.replicate n.toNat (seg_delta n q)).sum = q := by
  have hne : (n : ℚ) ≠ 0 := by
    exact_mod_cast (show (0 : ℤ) < n by omega).ne'
  have hcast : ((n.toNat : ℚ)) = (n : ℚ) := by
    rw [← Int.cast_natCast, Int.toNat_of_nonneg (by omega : (0 : ℤ) ≤ n)]
  rw [List.sum_replicate, nsmul_eq_mul, hcast, seg_delta,
    if_neg (by omega : ¬ n = 0), mul_comm]
  exact div_mul_cancel₀ q hne

/-- A zero displacement gives segment count 0. -/
theorem num_segments_self (x0 y0 z0 velocity : ℚ) :
    num_segments x0 y0 z0 x0 y0 z0 velocity = 0 := by
  unfold num_segments
  have h1 : (((x0 - x0) ^ 2 + (y0 - y0) ^ 2 + (z0 - z0) ^ 2 : ℚ) : ℝ) = 0 := by
    push_cast
    ring_nf
  rw [h1, Real.sqrt_zero, zero_div, zero_div]
  unfold py_round
  norm_num [round_eq]

/-- Claim C5 counterexample: for the nonzero displacement
`(0,0,0) → (0.01,0,0)` at speed `1` the computed segment count is `0`, the
planner emits no command at all, and the sum of emitted per-segment
displacements is `0`, not `0.01`; so the claim's equality fails for a
start ≠ target pair with positive speed. -/
theorem planner_sum_cex :
    ¬ (((1/100 : ℚ), (0 : ℚ), (0 : ℚ)) = ((0 : ℚ), (0 : ℚ), (0 : ℚ))) ∧
    (0 : ℚ) < 1 ∧
    num_segments 0 0 0 (1/100) 0 0 1 = 0 ∧
    planner_cmds 0 0 0 (1/100) 0 0 1 (num_segments 0 0 0 (1/100) 0 0 1) = [] ∧
    (List.replicate (num_segments 0 0 0 (1/100) 0 0 1).toNat
        (seg_delta (num_segments 0 0 0 (1/100) 0 0 1) ((1/100 : ℚ) - 0))).sum ≠
      (1/100 : ℚ) - 0 := by
  refine ⟨by norm_num, by norm_num, num_segments_short_dist, ?_, ?_⟩
  · rw [num_segments_short_dist]
    rfl
  · rw [num_segments_short_dist]
    norm_num [Int.toNat_zero]

/-- Claim C5, amended: when the computed segment count `n` is at least 1,
the `n` emitted per-segment displacements sum exactly to `target - start`
on every axis; and for `start == target` the count is 0 and no segment is
emitted.  (As originally stated the claim also asserted the exact sum for
short nonzero moves whose computed count is 0, which fails — see the
counterexample.) -/
theorem planner_sum_exact (x0 y0 z0 x1 y1 z1 velocity : ℚ) (n : ℤ)
    (hn : n = num_segments x0 y0 z0 x1 y1 z1 velocity) :
    (1 ≤ n →
      (List.replicate n.toNat (seg_delta n (x1 - x0))).sum = x1 - x0 ∧
      (List.replicate n.toNat (seg_delta n (y1 - y0))).sum = y1 - y0 ∧
      (List.replicate n.toNat (seg_delta n (z1 - z0))).sum = z1 - z0) ∧
    (x0 = x1 ∧ y0 = y1 ∧ z0 = z1 →
      n = 0 ∧ planner_cmds x0 y0 z0 x1 y1 z1 velocity n = []) := by
  constructor
  · intro h1
    exact ⟨seg_delta_replicate_sum n h1 _, seg_delta_replicate_sum n h1 _,
      seg_delta_replicate_sum n h1 _⟩
  · rintro ⟨hx, hy, hz⟩
    subst hx
    subst hy
    subst hz
    have h0 : n = 0 := by rw [hn, num_segments_self]
    subst h0
    exact ⟨rfl, rfl⟩

/-- Witness for the amended planner-sum theorem: the unit move
`(0,0,0) → (1,0,0)` at speed 1 has 20 segments summing to the full
displacement. -/
theorem planner_sum_exact_witness :
    ((1 : ℤ) ≤ 20 →
      (List.replicate (20 : ℤ).toNat (seg_delta 20 ((1 : ℚ) - 0))).sum = (1 : ℚ) - 0 ∧
      (List.replicate (20 : ℤ).toNat (seg_delta 20 ((0 : ℚ) - 0))).sum = (0 : ℚ) - 0 ∧
      (List.replicate (20 : ℤ).toNat (seg_delta 20 ((0 : ℚ) - 0))).sum = (0 : ℚ) - 0) ∧
    ((0 : ℚ) = 1 ∧ (0 : ℚ) = 0 ∧ (0 : ℚ) = 0 →
      (20 : ℤ) = 0 ∧ planner_cmds 0 0 0 1 0 0 1 20 = []) :=
  planner_sum_exact 0 0 0 1 0 0 1 20 num_segments_unit_dist.symm

/-- Claim C6 counterexample: for `(0,0,0) → (0.01,0,0)` at speed 1 the
computed segment count is 0, and the planner issues no command at all
rather than issuing the target `(0.01,0,0)` as a single command. -/
theorem planner_zero_cex :
    num_segments 0 0 0 (1/100) 0 0 1 = 0 ∧
    planner_cmds 0 0 0 (1/100) 0 0 1 (num_segments 0 0 0 (1/100) 0 0 1) = [] ∧
    planner_cmds 0 0 0 (1/100) 0 0 1 (num_segments 0 0 0 (1/100) 0 0 1) ≠
      [((1/100 : ℚ), (0 : ℚ), (0 : ℚ), (1 : ℚ))] := by
  refine ⟨num_segments_short_dist, ?_, ?_⟩ <;> rw [num_segments_short_dist]
  · rfl
  · simp [planner_cmds]

/-- Claim C6, amended: when the computed segment count is 0 — including
for a short nonzero displacement — `send_abs_pos_w_output` issues no
command at all: its loop body never runs, so the target is not issued
either (the original claim said the target is issued directly as a single
command). -/
theorem planner_zero_noop (x0 y0 z0 x1 y1 z1 velocity : ℚ)
    (h0 : num_segments x0 y0 z0 x1 y1 z1 velocity = 0) :
    planner_cmds x0 y0 z0 x1 y1 z1 velocity
      (num_segments x0 y0 z0 x1 y1 z1 velocity) = [] := by
  rw [h0]
  rfl

/-- Witness for the zero-segment no-op theorem at the short-displacement
input. -/
theorem planner_zero_noop_witness :
    planner_cmds 0 0 0 (1/100) 0 0 1 (num_segments 0 0 0 (1/100) 0 0 1) = [] :=
  planner_zero_noop 0 0 0 (1/100) 0 0 1 num_segments_short_dist

/-! ## Verified move: `send_abs_pos_verif` (drone_flight_options.py lines 412-441)

Each iteration of the `while not time_expired or not movement_complete`
loop issues the absolute-position command toward the target, reads one
telemetry snapshot, and then re-evaluates the two exit tests.  A run is
modelled by the list of `(elapsed, x, y, z)` observations the loop makes,
one per iteration. -/

/-- The loop's time test `time.time() - start_time >= min_delay`, with
`t` the elapsed time at the current iteration's check. -/
def time_expired (min_delay t : ℚ) : Prop := min_delay ≤ t

instance (min_delay t : ℚ) : Decidable (time_expired min_delay t) :=
  inferInstanceAs (Decidable (min_delay ≤ t))

/-- The loop's arrival test: on every axis the measured displacement from
the start reaches the completion fraction of the intended displacement. -/
def movement_complete (x0 y0 z0 x1 y1 z1 complete x y z : ℚ) : Prop :=
  complete * |x1 - x0| ≤ |x - x0| ∧
  complete * |y1 - y0| ≤ |y - y0| ∧
  complete * |z1 - z0| ≤ |z - z0|

instance (x0 y0 z0 x1 y1 z1 complete x y z : ℚ) :
    Decidable (movement_complete x0 y0 z0 x1 y1 z1 complete x y z) :=
  inferInstanceAs (Decidable (_ ∧ _ ∧ _))

/-- One run of `send_abs_pos_verif`'s loop over the observation list
`samples`.  Each consumed sample is one iteration: the command
`(x1, y1, z1, vel)` is issued, the sample `(t, x, y, z)` is read, and the
loop exits if both tests now pass.  The result is `some (k, cmds)` with
`k` the number of iterations run and `cmds` the issued commands, or
`none` if the observations run out with the loop still going. -/
def verif_loop (x0 y0 z0 x1 y1 z1 vel min_delay complete : ℚ) :
    List (ℚ × ℚ × ℚ × ℚ) → Option (ℕ × List (ℚ × ℚ × ℚ × ℚ))
  | [] => none
  | (t, x, y, z) :: rest =>
    if time_expired min_delay t ∧
        movement_complete x0 y0 z0 x1 y1 z1 complete x y z then
      some (1, [(x1, y1, z1, vel)])
    else
      match verif_loop x0 y0 z0 x1 y1 z1 vel min_delay complete rest with
      | some (k, cs) => some (k + 1, (x1, y1, z1, vel) :: cs)
      | none => none

/-- Claim C1: a terminating run of `send_abs_pos_verif` returns only on an
iteration where the minimum delay has elapsed and the three-axis
completion test holds simultaneously; on every earlier iteration at least
one of the two tests fails, and every iteration (the last included)
re-issues the absolute-position command toward the target. -/
theorem send_abs_pos_verif_exit (x0 y0 z0 x1 y1 z1 vel min_delay complete : ℚ)
    (samples : List (ℚ × ℚ × ℚ × ℚ)) (k : ℕ) (cmds : List (ℚ × ℚ × ℚ × ℚ))
    (h : verif_loop x0 y0 z0 x1 y1 z1 vel min_delay complete samples = some (k, cmds)) :
    1 ≤ k ∧
    cmds = List.replicate k (x1, y1, z1, vel) ∧
    (∃ s, samples[k - 1]? = some s ∧
      time_expired min_delay s.1 ∧
      movement_complete x0 y0 z0 x1 y1 z1 complete s.2.1 s.2.2.1 s.2.2.2) ∧
    (∀ j s, j < k - 1 → samples[j]? = some s →
      ¬ (time_expired min_delay s.1 ∧
         movement_complete x0 y0 z0 x1 y1 z1 complete s.2.1 s.2.2.1 s.2.2.2)) := by
  induction samples generalizing k cmds with
  | nil => simp [verif_loop] at h
  | cons hd rest ih =>
    obtain ⟨t, x, y, z⟩ := hd
    rw [verif_loop] at h
    by_cases hc : time_expired min_delay t ∧
        movement_complete x0 y0 z0 x1 y1 z1 complete x y z
    · rw [if_pos hc] at h
      simp only [Option.some.injEq, Prod.mk.injEq] at h
      obtain ⟨hk, hcmds⟩ := h
      subst hk
      subst hcmds
      refine ⟨le_refl 1, rfl, ⟨(t, x, y, z), by simp, hc.1, hc.2⟩, ?_⟩
      intro j s hj
      exact absurd hj (Nat.not_lt_zero j)
    · rw [if_neg hc] at h
      rcases hrec : verif_loop x0 y0 z0 x1 y1 z1 vel min_delay complete rest
        with _ | ⟨k', cs'⟩
      · rw [hrec] at h
        simp at h
      · rw [hrec] at h
        simp only [Option.some.injEq, Prod.mk.injEq] at h
        obtain ⟨hk, hcmds⟩ := h
        subst hk
        subst hcmds
        obtain ⟨hk1, hcs, ⟨s, hs, hs1, hs2⟩, hprev⟩ := ih k' cs' hrec
        cases k' with
        | zero => omega
        | succ m =>
          refine ⟨by omega, by simp [hcs, List.replicate_succ], ?_, ?_⟩
          · refine ⟨s, ?_, hs1, hs2⟩
            simpa using hs
          · intro j s' hj hget
            cases j with
            | zero =>
              simp only [List.getElem?_cons_zero, Option.some.injEq] at hget
              subst hget
              exact hc
            | succ j' =>
              apply hprev j' s' (by omega)
              simpa using hget

/-- Witness for the verified-move exit theorem: target `(1,0,0)` from the
origin, `min_delay = 1`, completion fraction `3/4`; the first observation
`(t=0, pos=(0,0,0))` fails both tests, the second `(t=2, pos=(1,0,0))`
passes both, so the loop runs exactly two iterations and issues the
command twice. -/
theorem send_abs_pos_verif_exit_witness :
    1 ≤ 2 ∧
    [((1 : ℚ), (0 : ℚ), (0 : ℚ), (1/2 : ℚ)), (1, 0, 0, 1/2)] =
      List.replicate 2 ((1 : ℚ), (0 : ℚ), (0 : ℚ), (1/2 : ℚ)) ∧
    (∃ s, [((0 : ℚ), (0 : ℚ), (0 : ℚ), (0 : ℚ)), ((2 : ℚ), (1 : ℚ), (0 : ℚ), (0 : ℚ))][2 - 1]? =
        some s ∧
      time_expired 1 s.1 ∧
      movement_complete 0 0 0 1 0 0 (3/4) s.2.1 s.2.2.1 s.2.2.2) ∧
    (∀ j s, j < 2 - 1 →
      [((0 : ℚ), (0 : ℚ), (0 : ℚ), (0 : ℚ)), ((2 : ℚ), (1 : ℚ), (0 : ℚ), (0 : ℚ))][j]? = some s →
      ¬ (time_expired 1 s.1 ∧
         movement_complete 0 0 0 1 0 0 (3/4) s.2.1 s.2.2.1 s.2.2.2)) :=
  send_abs_pos_verif_exit 0 0 0 1 0 0 (1/2) 1 (3/4)
    [(0, 0, 0, 0), (2, 1, 0, 0)] 2 [(1, 0, 0, 1/2), (1, 0, 0, 1/2)]
    (by norm_num [verif_loop, time_expired, movement_complete])

/-! ## Calibration: `set_drone_cal` and `move_cal` (drone_flight_options.py) -/

/-- The calibration-relevant fields of a `DroneCalibrated` instance, as
initialised by the constructor (lines 91-106): flight flags, the
`calibrated` flag, and the eight scale factors (all defaulting to 1.0). -/
structure DroneState where
  paired : Bool
  takeoff : Bool
  calibrated : Bool
  pitch_f : ℚ
  pitch_b : ℚ
  roll_r : ℚ
  roll_l : ℚ
  throttle_u : ℚ
  throttle_d : ℚ
  yaw_cw : ℚ
  yaw_ccw : ℚ
deriving DecidableEq

/-- Python runtime errors the embedded calibration methods can raise. -/
inductive PyError where
  | indexError
  | zeroDivisionError
deriving DecidableEq

/-- Vehicle commands issued during a calibration trial. -/
inductive DroneCmd where
  | setThrottle (v : ℚ)
  | setRoll (v : ℚ)
  | setPitch (v : ℚ)
  | move (duration : ℚ)
  | hover (t : ℚ)
deriving DecidableEq

/-- `set_drone_cal` (lines 114-124): assigns the eight scale factors from
`cal_param_list[0] .. cal_param_list[7]` in order and then sets the
`calibrated` flag.  Python list indexing raises `IndexError` at the first
missing element; the field assignments already made persist, so the
embedding returns the partially updated state together with the error. -/
def set_drone_cal (s : DroneState) (cal_param_list : List ℚ) :
    DroneState × Option PyError :=
  match cal_param_list[0]? with
  | none => (s, some PyError.indexError)
  | some v0 =>
    let s := { s with pitch_f := v0 }
    match cal_param_list[1]? with
    | none => (s, some PyError.indexError)
    | some v1 =>
      let s := { s with pitch_b := v1 }
      match cal_param_list[2]? with
      | none => (s, some PyError.indexError)
      | some v2 =>
        let s := { s with roll_r := v2 }
        match cal_param_list[3]? with
        | none => (s, some PyError.indexError)
        | some v3 =>
          let s := { s with roll_l := v3 }
          match cal_param_list[4]? with
          | none => (s, some PyError.indexError)
          | some v4 =>
            let s := { s with throttle_u := v4 }
            match cal_param_list[5]? with
            | none => (s, some PyError.indexError)
            | some v5 =>
              let s := { s with throttle_d := v5 }
              match cal_param_list[6]? with
              | none => (s, some PyError.indexError)
              | some v6 =>
                let s := { s with yaw_cw := v6 }
                match cal_param_list[7]? with
                | none => (s, some PyError.indexError)
                | some v7 =>
                  ({ s with yaw_ccw := v7, calibrated := true }, none)

/-- The vehicle commands one pitch-calibration trial issues, in order
(lines 212-233): zero throttle and roll, forward pitch probe, backward
pitch probe; `hover`/`move` bracket the probe segments, telemetry reads
happen between them. -/
def move_cal_iter_cmds (power_lev duration : ℚ) : List DroneCmd :=
  [DroneCmd.setThrottle 0, DroneCmd.setRoll 0, DroneCmd.setPitch power_lev,
   DroneCmd.hover 2, DroneCmd.move duration, DroneCmd.hover 2,
   DroneCmd.setPitch (-power_lev), DroneCmd.move duration, DroneCmd.hover 2]

/-- The calibration trial loop `for i in range(0, repeats)`
(lines 211-237).  `trials n = (y0, y1, y2)` are the three Y-telemetry
readings of trial `n`; the trial computes `delta_y_forward = y1 - y0` and
`delta_y_back = y2 - y1` and appends `delta_y_forward / delta_y_back` to
the `pitch_b` list — raising `ZeroDivisionError` when
`delta_y_back == 0` — then zeroes the pitch.  A raised error aborts the
remaining iterations. -/
def move_cal_loop (power_lev duration : ℚ) (trials : ℕ → ℚ × ℚ × ℚ) :
    ℕ → List ℚ × List DroneCmd × Option PyError
  | 0 => ([], [], none)
  | n + 1 =>
    let r := move_cal_loop power_lev duration trials n
    match r.2.2 with
    | some e => (r.1, r.2.1, some e)
    | none =>
      let delta_y_forward := (trials n).2.1 - (trials n).1
      let delta_y_back := (trials n).2.2 - (trials n).2.1
      if delta_y_back = 0 then
        (r.1, r.2.1 ++ move_cal_iter_cmds power_lev duration,
         some PyError.zeroDivisionError)
      else
        (r.1 ++ [delta_y_forward / delta_y_back],
         r.2.1 ++ move_cal_iter_cmds power_lev duration ++ [DroneCmd.setPitch 0],
         none)

/-- The observable outcome of a `move_cal` call: final field state, the
vehicle commands issued, whether the not-paired/not-airborne message was
printed, and the Python error (if any) that propagated out. -/
structure MoveCalResult where
  state : DroneState
  cmds : List DroneCmd
  illegal_msg : Bool
  error : Option PyError
deriving DecidableEq

/-- `move_cal` (lines 192-296).  If the drone is not both paired and taken
off it only prints that the operation is illegal and performs nothing.
Otherwise it runs `repeats = 2` probe trials (the roll and throttle trial
code is commented out in the source, so those lists stay empty), then
assigns the profile through `set_drone_cal` with the 6-element list
`[1.0, sum(pitch_b)/repeats, sum(roll_r)/repeats, sum(roll_l)/repeats,
sum(throttle_u)/repeats, sum(throttle_d)/repeats]` and — if that call
returns — overwrites it by a second `set_drone_cal` with
`[1.0, sum(pitch_b)/repeats, 1.0, 1.0, 1.0, 1.0]`.  A raised error
propagates, keeping the state mutations already performed. -/
def move_cal (s : DroneState) (power_lev duration : ℚ)
    (trials : ℕ → ℚ × ℚ × ℚ) : MoveCalResult :=
  let repeats : ℕ := 2
  if s.paired && s.takeoff then
    let r := move_cal_loop power_lev duration trials repeats
    match r.2.2 with
    | some e => ⟨s, r.2.1, false, some e⟩
    | none =>
      let pitch_b := r.1
      let roll_r : List ℚ := []
      let roll_l : List ℚ := []
      let throttle_u : List ℚ := []
      let throttle_d : List ℚ := []
      let cal1 := [1, pitch_b.sum / (repeats : ℚ), roll_r.sum / (repeats : ℚ),
        roll_l.sum / (repeats : ℚ), throttle_u.sum / (repeats : ℚ),
        throttle_d.sum / (repeats : ℚ)]
      let r1 := set_drone_cal s cal1
      match r1.2 with
      | some e => ⟨r1.1, r.2.1, false, some e⟩
      | none =>
        let r2 := set_drone_cal r1.1 [1, pitch_b.sum / (repeats : ℚ), 1, 1, 1, 1]
        ⟨r2.1, r.2.1, false, r2.2⟩
  else
    ⟨s, [], true, none⟩

/-- A paired, airborne, not-yet-calibrated state with the constructor's
default profile (all factors 1.0). -/
def s_flight : DroneState :=
  ⟨true, true, false, 1, 1, 1, 1, 1, 1, 1, 1⟩

/-- Claim C8: invoking `move_cal` without both `paired` and `takeoff`
reports the operation as illegal, issues no vehicle command, and leaves
the whole state — the eight factors and the `calibrated` flag included —
unchanged. -/
theorem move_cal_precondition (s : DroneState) (power_lev duration : ℚ)
    (trials : ℕ → ℚ × ℚ × ℚ)
    (h : ¬ (s.paired = true ∧ s.takeoff = true)) :
    move_cal s power_lev duration trials = ⟨s, [], true, none⟩ := by
  simp only [move_cal]
  rw [if_neg (by simpa [Bool.and_eq_true] using h)]

/-- Witness for the precondition theorem: an unpaired, grounded state. -/
theorem move_cal_precondition_witness :
    move_cal ⟨false, false, false, 1, 1, 1, 1, 1, 1, 1, 1⟩ 20 2
        (fun _ => (0, 2, 3)) =
      ⟨⟨false, false, false, 1, 1, 1, 1, 1, 1, 1, 1⟩, [], true, none⟩ :=
  move_cal_precondition ⟨false, false, false, 1, 1, 1, 1, 1, 1, 1, 1⟩ 20 2
    (fun _ => (0, 2, 3)) (by simp)

/-- Claim C10: with `paired` and `takeoff` both true and both probe trials
completing (nonzero measured backward displacement), `move_cal`'s profile
assignment passes a 6-element list to `set_drone_cal`, which reads
indices 6 and 7 and so raises `IndexError` before the line setting the
`calibrated` flag: the run ends in `IndexError`, `calibrated` is left
unchanged (hence still `False`), and the roll and throttle factors hold
the `0.0` coming from averaging the empty roll/throttle trial lists. -/
theorem move_cal_index_error (s : DroneState) (power_lev duration : ℚ)
    (trials : ℕ → ℚ × ℚ × ℚ)
    (hp : s.paired = true) (ht : s.takeoff = true)
    (h0 : (trials 0).2.2 - (trials 0).2.1 ≠ 0)
    (h1 : (trials 1).2.2 - (trials 1).2.1 ≠ 0) :
    (move_cal s power_lev duration trials).error = some PyError.indexError ∧
    (move_cal s power_lev duration trials).state.calibrated = s.calibrated ∧
    (move_cal s power_lev duration trials).state.roll_r = 0 ∧
    (move_cal s power_lev duration trials).state.roll_l = 0 ∧
    (move_cal s power_lev duration trials).state.throttle_u = 0 ∧
    (move_cal s power_lev duration trials).state.throttle_d = 0 := by
  refine ⟨?_, ?_, ?_, ?_, ?_, ?_⟩ <;>
    simp [move_cal, move_cal_loop, set_drone_cal, hp, ht, h0, h1]

/-- Witness for the index-error theorem: the default paired airborne
state with both trials reading `(0, 2, 3)` (forward 2.0, back 1.0). -/
theorem move_cal_index_error_witness :
    (move_cal s_flight 20 2 (fun _ => (0, 2, 3))).error = some PyError.indexError ∧
    (move_cal s_flight 20 2 (fun _ => (0, 2, 3))).state.calibrated = s_flight.calibrated ∧
    (move_cal s_flight 20 2 (fun _ => (0, 2, 3))).state.roll_r = 0 ∧
    (move_cal s_flight 20 2 (fun _ => (0, 2, 3))).state.roll_l = 0 ∧
    (move_cal s_flight 20 2 (fun _ => (0, 2, 3))).state.throttle_u = 0 ∧
    (move_cal s_flight 20 2 (fun _ => (0, 2, 3))).state.throttle_d = 0 :=
  move_cal_index_error s_flight 20 2 (fun _ => (0, 2, 3)) rfl rfl
    (by norm_num) (by norm_num)

/-- Claim C4 at a failing reachable run: starting from the paired,
airborne default state, a `move_cal` whose two trials both measure
forward 2.0 and back 1.0 leaves the roll and throttle factors at `0`, so
the profile does not keep all eight factors strictly positive. -/
theorem move_cal_factors_not_positive :
    (move_cal s_flight 20 2 (fun _ => (0, 2, 3))).state.roll_r = 0 ∧
    (move_cal s_flight 20 2 (fun _ => (0, 2, 3))).state.roll_l = 0 ∧
    (move_cal s_flight 20 2 (fun _ => (0, 2, 3))).state.throttle_u = 0 ∧
    (move_cal s_flight 20 2 (fun _ => (0, 2, 3))).state.throttle_d = 0 ∧
    ¬ (0 < (move_cal s_flight 20 2 (fun _ => (0, 2, 3))).state.roll_r) := by
  refine ⟨?_, ?_, ?_, ?_, ?_⟩ <;>
    norm_num [move_cal, move_cal_loop, set_drone_cal, s_flight]

/-- Claim C3 at the failing input: with a first trial measuring zero
backward displacement (`y2 == y1`), `move_cal` raises an uncaught
`ZeroDivisionError` — there is no `InvalidCalibrationSample` guard and no
trial exclusion — and the calibration profile is left untouched. -/
theorem move_cal_zero_denominator_crash :
    (move_cal s_flight 20 2 (fun _ => (0, 2, 2))).error =
      some PyError.zeroDivisionError ∧
    (move_cal s_flight 20 2 (fun _ => (0, 2, 2))).state = s_flight := by
  refine ⟨?_, ?_⟩ <;>
    norm_num [move_cal, move_cal_loop, move_cal_iter_cmds, s_flight]

/-- Claim C9 counterexample: two runs of `move_random_xyz` observing the
same entry reference `(0,0,0)` but different live telemetry during the
pattern (and identical sampled deltas) issue different move targets — so
the random-walk segment targets are computed from live telemetry read
during the pattern, not only from the captured reference. -/
theorem patterns_live_telemetry_cex :
    (fun i => if i = 0 then ((0 : ℚ), (0 : ℚ), (0 : ℚ)) else (1, 0, 0)) 0 =
      (fun _ => ((0 : ℚ), (0 : ℚ), (0 : ℚ))) 0 ∧
    move_random_xyz_cmds
        (fun i => if i = 0 then ((0 : ℚ), (0 : ℚ), (0 : ℚ)) else (1, 0, 0))
        (fun _ => (0, 0, 0)) (-1) 1 (-1) 1 (-1) 1 1 ≠
      move_random_xyz_cmds (fun _ => ((0 : ℚ), (0 : ℚ), (0 : ℚ)))
        (fun _ => (0, 0, 0)) (-1) 1 (-1) 1 (-1) 1 1 := by
  refine ⟨rfl, ?_⟩
  norm_num [move_random_xyz_cmds, random_seg_target, clamp_delta, List.range_succ]

/-- Claim C9, amended: the four simple sweep patterns capture the
reference position once at entry and compute every move target from that
reference alone — two runs observing the same entry snapshot issue
identical targets whatever the later telemetry.  The random-walk variants
do not share this property: each of their segment targets is the live
telemetry position plus the clamped delta (see the counterexample). -/
theorem simple_patterns_reference_only (tel tel2 : ℕ → ℚ × ℚ × ℚ)
    (del_x del_y del_z : ℚ) (repeats : ℕ) (h : tel 0 = tel2 0) :
    move_x_simple_cmds tel del_x repeats = move_x_simple_cmds tel2 del_x repeats ∧
    move_y_simple_cmds tel del_y repeats = move_y_simple_cmds tel2 del_y repeats ∧
    move_z_simple_cmds tel del_z repeats = move_z_simple_cmds tel2 del_z repeats ∧
    move_yz_simple_cmds tel del_y del_z repeats =
      move_yz_simple_cmds tel2 del_y del_z repeats := by
  refine ⟨?_, ?_, ?_, ?_⟩ <;>
    simp only [move_x_simple_cmds, move_y_simple_cmds, move_z_simple_cmds,
      move_yz_simple_cmds, h]

/-- Witness for the reference-frame theorem: a constant telemetry stream
and a stream agreeing with it only at entry give the same sweeps. -/
theorem simple_patterns_reference_only_witness :
    move_x_simple_cmds (fun _ => ((0 : ℚ), (0 : ℚ), (0 : ℚ))) 1 1 =
      move_x_simple_cmds
        (fun i => if i = 0 then ((0 : ℚ), (0 : ℚ), (0 : ℚ)) else (5, 5, 5)) 1 1 ∧
    move_y_simple_cmds (fun _ => ((0 : ℚ), (0 : ℚ), (0 : ℚ))) 1 1 =
      move_y_simple_cmds
        (fun i => if i = 0 then ((0 : ℚ), (0 : ℚ), (0 : ℚ)) else (5, 5, 5)) 1 1 ∧
    move_z_simple_cmds (fun _ => ((0 : ℚ), (0 : ℚ), (0 : ℚ))) 1 1 =
      move_z_simple_cmds
        (fun i => if i = 0 then ((0 : ℚ), (0 : ℚ), (0 : ℚ)) else (5, 5, 5)) 1 1 ∧
    move_yz_simple_cmds (fun _ => ((0 : ℚ), (0 : ℚ), (0 : ℚ))) 1 1 1 =
      move_yz_simple_cmds
        (fun i => if i = 0 then ((0 : ℚ), (0 : ℚ), (0 : ℚ)) else (5, 5, 5)) 1 1 1 :=
  simple_patterns_reference_only (fun _ => ((0 : ℚ), (0 : ℚ), (0 : ℚ)))
    (fun i => if i = 0 then ((0 : ℚ), (0 : ℚ), (0 : ℚ)) else (5, 5, 5)) 1 1 1 1 rfl

end FlightOption
